import Mathlib

/-!
Verification development for the MotoStudent Teensy CAN data logger
(`DAQ_teensy.ino`, v2.0 sketch, plus the earlier logger variants kept in the
repository).  The firmware's data model and operations are shallowly embedded:
machine integers become `Nat`/`Int` (with explicit `% 2 ^ 16` where the C code
truncates), `float` scaling formulas are modelled over `ℚ`, and the stateful
loop becomes explicit state passing.
-/

namespace DAQ

/-! ## Frame decoding (`updateCANData`, DAQ_teensy.ino v2.0)

`CAN_Data` mirrors the `struct CAN_Data` of the firmware: every channel is
initialised to the sentinel `-1`.  A CAN message carries an id and eight
payload bytes `buf[0] .. buf[7]`. -/

/-- The shared channel state `struct CAN_Data`.  Float channels are modelled
over `ℚ`. -/
structure CAN_Data where
  rpm : Int
  tps : ℚ
  ect : ℚ
  map_mbar : ℚ
  vbat : ℚ
  gear : Int
  lambda1 : ℚ
  deriving Repr, DecidableEq

/-- Default-constructed `CAN_Data()`: every channel at its sentinel `-1`. -/
def CAN_Data.init : CAN_Data :=
  { rpm := -1, tps := -1, ect := -1, map_mbar := -1, vbat := -1, gear := -1, lambda1 := -1 }

/-- A raw CAN frame: identifier plus the eight payload bytes `buf[0]..buf[7]`. -/
structure CANMsg where
  id : Nat
  b0 : Nat
  b1 : Nat
  b2 : Nat
  b3 : Nat
  b4 : Nat
  b5 : Nat
  b6 : Nat
  b7 : Nat
  deriving Repr, DecidableEq

/-- The AIM protocol message ids used by the firmware. -/
def ID_RPM_TPS : Nat := 0x5F0
def ID_TEMPS : Nat := 0x5F2
def ID_PRESSURES : Nat := 0x5F3
def ID_VBAT_GEAR : Nat := 0x5F4
def ID_LAMBDA : Nat := 0x5F6

/-- The C cast `(int16_t)` applied to a 16-bit raw value: truncate to 16 bits
and reinterpret as a signed two's-complement value. -/
def toInt16 (r : Nat) : Int :=
  if r % 65536 < 32768 then (r % 65536 : Int) else (r % 65536 : Int) - 65536

/-- `updateCANData` (DAQ_teensy.ino v2.0): decode one frame into the channel
state, dispatching on the message id; unknown ids leave the state unchanged. -/
def updateCANData (msg : CANMsg) (d : CAN_Data) : CAN_Data :=
  if msg.id = ID_RPM_TPS then
    { d with
      rpm := (((msg.b1 <<< 8) ||| msg.b0 : Nat) : Int),
      tps := (((msg.b3 <<< 8) ||| msg.b2 : Nat) : ℚ) / 650 }
  else if msg.id = ID_TEMPS then
    { d with
      ect := ((((msg.b3 <<< 8) ||| msg.b2 : Nat) : ℚ) / 19 - 450) / 10 }
  else if msg.id = ID_PRESSURES then
    { d with
      map_mbar := (((msg.b1 <<< 8) ||| msg.b0 : Nat) : ℚ) / 10 }
  else if msg.id = ID_VBAT_GEAR then
    { d with
      vbat := ((((msg.b3 <<< 8) ||| msg.b2 : Nat) : ℚ) / 32) / 100,
      gear := toInt16 ((msg.b7 <<< 8) ||| msg.b6) }
  else if msg.id = ID_LAMBDA then
    { d with
      lambda1 := ((((msg.b1 <<< 8) ||| msg.b0 : Nat) : ℚ) / 2) / 1000 }
  else d

/-- The documented temperature formula `(((hi<<8|lo)/19.0)-450.0)/10.0`,
written over the 16-bit raw value as the spec states it. -/
def specTempFormula (raw : ℚ) : ℚ := (raw / 19 - 450) / 10

/-! ## Main loop, timeout monitor (DAQ_teensy.ino v2.0 `loop`, Tasks 1 and 2)

The loop state carries the decoded data, the `canTimeout` flag and
`lastCANMessageTime`; `diagTimeout` counts the `"ERROR: CAN bus timeout!"`
diagnostic lines printed at the ACTIVE → TIMED_OUT edge, and `diagResume`
the `"CAN bus communication resumed."` lines printed at the opposite edge. -/

def CAN_TIMEOUT_MS : Nat := 500

/-- The loop-visible state of the v2.0 firmware's timeout monitor. -/
structure LoggerState where
  data : CAN_Data
  canTimeout : Bool
  lastCANMessageTime : Nat
  diagTimeout : Nat
  diagResume : Nat
  deriving Repr, DecidableEq

/-- Task 1 of `loop`: process one received frame at time `now` — clear the
timeout flag (emitting the resume diagnostic on that edge), stamp
`lastCANMessageTime`, and decode the frame. -/
def receiveFrame (now : Nat) (msg : CANMsg) (s : LoggerState) : LoggerState :=
  { s with
    diagResume := if s.canTimeout then s.diagResume + 1 else s.diagResume,
    canTimeout := false,
    lastCANMessageTime := now,
    data := updateCANData msg s.data }

/-- Task 1 of `loop`: drain all frames available this tick, in order. -/
def receiveFrames (now : Nat) (msgs : List CANMsg) (s : LoggerState) : LoggerState :=
  msgs.foldl (fun s msg => receiveFrame now msg s) s

/-- Task 2 of `loop`: the timeout check.  Edge-triggered: only when the flag
is not yet set and `now - lastCANMessageTime > CAN_TIMEOUT_MS` does it set the
flag, emit one diagnostic line and reset the data to the sentinel state. -/
def checkTimeout (now : Nat) (s : LoggerState) : LoggerState :=
  if !s.canTimeout ∧ now - s.lastCANMessageTime > CAN_TIMEOUT_MS then
    { s with canTimeout := true, diagTimeout := s.diagTimeout + 1, data := CAN_Data.init }
  else s

/-- One tick of `loop` (the CAN tasks): drain the pending frames, then run the
timeout check, both at time `now`. -/
def tick (now : Nat) (msgs : List CANMsg) (s : LoggerState) : LoggerState :=
  checkTimeout now (receiveFrames now msgs s)

/-- Run a sequence of loop ticks; each list entry is the tick's `millis()`
value paired with the frames drained during that tick. -/
def runTicks (ts : List (Nat × List CANMsg)) (s : LoggerState) : LoggerState :=
  ts.foldl (fun s t => tick t.1 t.2 s) s

/-- Ticks at the given times with no frames received. -/
def runQuietTicks (times : List Nat) (s : LoggerState) : LoggerState :=
  runTicks (times.map (fun t => (t, []))) s

/-! ## RAM log buffer (`logDataToFile` steps 4–5 and `flushBuffer`, v2.0)

The 8 KiB `char logBuffer[LOG_BUFFER_SIZE]` with its write cursor
`bufferIndex` is modelled as the list of bytes currently occupying
`logBuffer[0..bufferIndex)`; `written` collects the bytes handed to
`logfile.write` by flushes, in order. -/

def LOG_BUFFER_SIZE : Nat := 8192

/-- The RAM buffer (`logBuffer`/`bufferIndex`) together with the byte stream
already written to the open file. -/
structure BufState where
  buffer : List Nat
  written : List Nat
  deriving Repr, DecidableEq

/-- `flushBuffer` (v2.0): if the buffer is non-empty, write its `bufferIndex`
bytes to the file and reset the cursor to zero. -/
def flushBuffer (s : BufState) : BufState :=
  if s.buffer.length > 0 then { buffer := [], written := s.written ++ s.buffer } else s

/-- Steps 4–5 of `logDataToFile` (v2.0): if the formatted line would not fit
(`bufferIndex + len ≥ LOG_BUFFER_SIZE`), flush first; then `memcpy` the line
to `logBuffer + bufferIndex` and advance the cursor. -/
def appendLine (line : List Nat) (s : BufState) : BufState :=
  let s1 := if s.buffer.length + line.length ≥ LOG_BUFFER_SIZE then flushBuffer s else s
  { s1 with buffer := s1.buffer ++ line }

/-- An operation on the log buffer: a line append or an explicit flush. -/
inductive BufOp where
  | append (line : List Nat)
  | flush
  deriving Repr, DecidableEq

/-- Apply one buffer operation. -/
def applyBufOp (s : BufState) : BufOp → BufState
  | .append line => appendLine line s
  | .flush => flushBuffer s

/-- Run a sequence of appends and flushes. -/
def runBufOps (ops : List BufOp) (s : BufState) : BufState :=
  ops.foldl applyBufOp s

/-- The bytes a buffer operation introduces. -/
def bufOpBytes : BufOp → List Nat
  | .append line => line
  | .flush => []

/-- All bytes introduced by a sequence of buffer operations. -/
def bufOpsBytes (ops : List BufOp) : List Nat :=
  (ops.map bufOpBytes).flatten

/-! ## CRC32 and log-line formatting (`logDataToFile` steps 1–3, v2.0)

`CRC32::calculate` of the Arduino CRC32 library is the standard reflected
CRC-32 (polynomial `0xEDB88320`, initial value `0xFFFFFFFF`, final xor
`0xFFFFFFFF`), processed byte by byte over the textual line. -/

def CRC32_POLY : Nat := 0xEDB88320

/-- One bit step of the reflected CRC-32. -/
def crc32Bit (c : Nat) : Nat :=
  if c % 2 = 1 then (c / 2) ^^^ CRC32_POLY else c / 2

/-- Absorb one byte into the CRC state. -/
def crc32Byte (c b : Nat) : Nat :=
  crc32Bit^[8] (c ^^^ b % 256)

/-- `CRC32::calculate` over a byte sequence. -/
def crc32 (data : List Nat) : Nat :=
  (data.foldl crc32Byte 0xFFFFFFFF) ^^^ 0xFFFFFFFF

/-- CRC32 of a text fragment, bytewise over its characters. -/
def crc32Str (cs : List Char) : Nat :=
  crc32 (cs.map Char.toNat)

/-- The decimal digit characters used by `snprintf` `%lu` rendering. -/
def digitChar (d : Nat) : Char :=
  match d with
  | 0 => '0' | 1 => '1' | 2 => '2' | 3 => '3' | 4 => '4'
  | 5 => '5' | 6 => '6' | 7 => '7' | 8 => '8' | _ => '9'

/-- Fuel-bounded most-significant-first digit expansion. -/
def natDigitsAux : Nat → Nat → List Char
  | 0, _ => []
  | fuel + 1, n => if n = 0 then [] else natDigitsAux fuel (n / 10) ++ [digitChar (n % 10)]

/-- Decimal rendering of an unsigned value, as `snprintf` `%lu` produces it. -/
def natRepr (n : Nat) : List Char :=
  if n = 0 then ['0'] else natDigitsAux (n + 1) n

/-- Steps 1–3 of `logDataToFile` (v2.0): given the already formatted data
portion `tempLine[0..len)`, compute the CRC32 over it and append
`",%lu\n"` of the checksum. -/
def mkLogLine (dataPart : List Char) : List Char :=
  dataPart ++ [','] ++ natRepr (crc32Str dataPart) ++ ['\n']

/-- Drop a single trailing newline if present. -/
def stripNewline (cs : List Char) : List Char :=
  if cs.getLast? = some '\n' then cs.dropLast else cs

/-- Character test used when locating the checksum column. -/
def notComma (c : Char) : Bool := c ≠ ','

/-- Split a line body at its last comma: everything before it, and the final
(checksum) field after it. -/
def splitAtLastComma (cs : List Char) : List Char × List Char :=
  let rev := cs.reverse
  (((rev.dropWhile notComma).drop 1).reverse, (rev.takeWhile notComma).reverse)

/-- Recompute a line's checksum from the data fields preceding the checksum
column and compare it with the stored checksum field. -/
def checkLine (cs : List Char) : Bool :=
  let body := stripNewline cs
  let p := splitAtLastComma body
  natRepr (crc32Str p.1) == p.2

/-- The CSV header text written by `newLogFile` (v2.0, line 421). -/
def headerLine : List Char :=
  "Time(ms),RPM,TPS(%),Coolant(C),MAP(mBar),VBAT(V),Gear,Lambda1,CRC32".toList

/-- The bytes `newLogFile` places in the fresh file: the header plus the
newline appended by the `\n` in its format string. -/
def headerBytes : List Char := headerLine ++ ['\n']

/-! ## Filename collision probing (`newLogFile` v2.0; `openNextLogFile`,
part_002)

`ex i = true` models `sd.exists` holding for the filename generated from
index `i`.  In v2.0 `fileIndex` is a `uint16_t` and `snprintf "%03d"` gives a
distinct name for each of its 65536 values, so the do/while collision loop
revisits the same names with period 65536. -/

def UINT16_CARD : Nat := 65536

/-- The v2.0 `newLogFile` do/while loop, unrolled with fuel: try the name of
`idx`, advance on collision.  Exhausting one full 16-bit period means the
source loop cycles through every name it can ever generate without finding a
free one, i.e. it never exits. -/
def probeAux (ex : Nat → Bool) : Nat → Nat → Option Nat
  | 0, _ => none
  | fuel + 1, idx => if ex (idx % UINT16_CARD) then probeAux ex fuel (idx + 1)
                     else some (idx % UINT16_CARD)

/-- The collision probe of `newLogFile` (v2.0): `some i` is the first free
index starting from `fileIndex`; `none` means the do/while loop never
terminates (there is no error path in the source). -/
def newLogFileProbe (ex : Nat → Bool) (fileIndex : Nat) : Option Nat :=
  probeAux ex UINT16_CARD fileIndex

/-- Outcome of `openNextLogFile` (part_002): either a fatal `errorHalt`, or
the index of the freshly opened file. -/
structure OpenResult where
  halted : Bool
  opened : Option Nat
  deriving Repr, DecidableEq

/-- The bounded `while (logFileNumber <= 999)` probe of part_002's
`openNextLogFile`: first free index in `[logFileNumber, 999]`. -/
def findFree002 (ex : Nat → Bool) (n : Nat) : Option Nat :=
  (List.range' n (1000 - n)).find? (fun i => !ex i)

/-- `openNextLogFile` (part_002, lines 447–461): probe the bounded namespace;
on exhaustion (`logFileNumber > 999`) call `errorHalt`. -/
def openNextLogFile (ex : Nat → Bool) (logFileNumber : Nat) : OpenResult :=
  match findFree002 ex logFileNumber with
  | some i => { halted := false, opened := some i }
  | none => { halted := true, opened := none }

/-! ## File rotation (`logDataToFile` step 6 and `newLogFile`, v2.0)

The state adds the open file's contents, the closed files, the `uint16_t`
`fileIndex` and a count of files opened so far.  `logfile.size()` is the
number of bytes written to the open file, i.e. `curFile.length`. -/

def FILE_SIZE_LIMIT : Nat := 10 * 1024 * 1024

/-- Rotation-level logger state. -/
structure RotState where
  buffer : List Char
  curFile : List Char
  closedFiles : List (List Char)
  fileIndex : Nat
  openCount : Nat
  deriving Repr, DecidableEq

/-- `flushBuffer` at the rotation level: move the buffered bytes into the
open file. -/
def flushToFile (s : RotState) : RotState :=
  if s.buffer.length > 0 then { s with buffer := [], curFile := s.curFile ++ s.buffer } else s

/-- `newLogFile` (v2.0, lines 408–423) after the current file has been
closed: run the collision probe (post-incrementing `fileIndex`), open the
fresh file, place the header in the buffer and flush it, so the new file
starts with exactly the header line.  `none` propagates a never-terminating
probe. -/
def newLogFile (ex : Nat → Bool) (s : RotState) : Option RotState :=
  match newLogFileProbe ex s.fileIndex with
  | none => none
  | some i => some { buffer := [], curFile := headerBytes, closedFiles := s.closedFiles,
                     fileIndex := (i + 1) % UINT16_CARD, openCount := s.openCount + 1 }

/-- Step 6 of `logDataToFile` (v2.0, lines 384–389): when the open file
exceeds the size limit and `fileIndex < 999`, flush the remaining buffer to
the old file, close it, and open a new one. -/
def checkRotate (ex : Nat → Bool) (s : RotState) : Option RotState :=
  if FILE_SIZE_LIMIT < s.curFile.length ∧ s.fileIndex < 999 then
    let s1 := flushToFile s
    newLogFile ex { s1 with closedFiles := s1.closedFiles ++ [s1.curFile], curFile := [] }
  else some s

/-- Steps 4–5 of `logDataToFile` at the rotation level: same buffering logic
as `appendLine`, writing flushes into the open file. -/
def bufferLine (line : List Char) (s : RotState) : RotState :=
  let s1 := if s.buffer.length + line.length ≥ LOG_BUFFER_SIZE then flushToFile s else s
  { s1 with buffer := s1.buffer ++ line }

/-- `logDataToFile` (v2.0) at the rotation level: buffer the freshly
formatted line, then run the rotation check. -/
def logDataToFile (ex : Nat → Bool) (line : List Char) (s : RotState) : Option RotState :=
  checkRotate ex (bufferLine line s)

/-- Iterate `logDataToFile` over a list of formatted lines. -/
def logRun (ex : Nat → Bool) (lines : List (List Char)) (s : RotState) : Option RotState :=
  lines.foldlM (fun s l => logDataToFile ex l s) s

/-! ## Flush failure handling (v2.0 `flushBuffer`; part_004 `loop` flush)

`writeResult` models the byte count returned by `logfile.write`, `syncOk`
the success of `logfile.sync`.  The `halted` flag models having entered the
non-recoverable `errorHalt`/`systemHalt` state. -/

/-- Write-failure-visible flush state. -/
structure FlushState where
  bufferIndex : Nat
  halted : Bool
  deriving Repr, DecidableEq

/-- `flushBuffer` (v2.0, lines 395–403) with the result of `logfile.write`
made explicit: the source discards that result, resets the cursor and
returns — no comparison against `bufferIndex`, no halt. -/
def flushBufferWrite (_writeResult : Nat) (s : FlushState) : FlushState :=
  if s.bufferIndex > 0 then { s with bufferIndex := 0 } else s

/-- The periodic flush of part_004's `loop` (lines 106–114): a short write
(`write < bufferIndex`) or failed sync calls `errorHalt`; otherwise the
cursor is reset. -/
def periodicFlush (writeResult : Nat) (syncOk : Bool) (s : FlushState) : FlushState :=
  if s.bufferIndex > 0 then
    if writeResult < s.bufferIndex ∨ syncOk = false then { s with halted := true }
    else { s with bufferIndex := 0 }
  else s

/-! ## Buffer lemmas and claim C1 -/

theorem flushBuffer_stream (s : BufState) :
    (flushBuffer s).written ++ (flushBuffer s).buffer = s.written ++ s.buffer := by
  unfold flushBuffer
  split <;> simp

theorem flushBuffer_buffer (s : BufState) : (flushBuffer s).buffer = [] := by
  unfold flushBuffer
  split
  · rfl
  · next h =>
    exact List.eq_nil_of_length_eq_zero (Nat.eq_zero_of_not_pos h)

theorem appendLine_stream (line : List Nat) (s : BufState) :
    (appendLine line s).written ++ (appendLine line s).buffer = s.written ++ s.buffer ++ line := by
  unfold appendLine
  dsimp only
  split
  · have h1 := flushBuffer_stream s
    rw [flushBuffer_buffer s, List.append_nil] at h1
    simp [flushBuffer_buffer s, h1]
  · simp [List.append_assoc]

theorem appendLine_length (line : List Nat) (s : BufState) (h : line.length < LOG_BUFFER_SIZE) :
    (appendLine line s).buffer.length < LOG_BUFFER_SIZE := by
  unfold appendLine
  dsimp only
  split
  · simpa [flushBuffer_buffer s] using h
  · next hc =>
    simp only [List.length_append]
    omega

/-- C1.  For every sequence of appends and flushes on the v2.0 log buffer
(lines each shorter than the capacity, as the 128-byte `tempLine` guarantees),
the write cursor stays within `[0, LOG_BUFFER_SIZE]` and no byte is dropped:
the bytes flushed to the file followed by the bytes still buffered are exactly
the initial contents followed by every appended line, in order. -/
theorem buffer_cursor_bound_no_drop (ops : List BufOp) (s0 : BufState)
    (h0 : s0.buffer.length ≤ LOG_BUFFER_SIZE)
    (hlen : ∀ line, BufOp.append line ∈ ops → line.length < LOG_BUFFER_SIZE) :
    (runBufOps ops s0).buffer.length ≤ LOG_BUFFER_SIZE ∧
    (runBufOps ops s0).written ++ (runBufOps ops s0).buffer =
      s0.written ++ s0.buffer ++ bufOpsBytes ops := by
  induction ops generalizing s0 with
  | nil => simpa [runBufOps, bufOpsBytes] using h0
  | cons op rest ih =>
    have hstep : runBufOps (op :: rest) s0 = runBufOps rest (applyBufOp s0 op) := rfl
    cases op with
    | append line =>
      have hl : line.length < LOG_BUFFER_SIZE := hlen line (by simp)
      have hrest : ∀ l, BufOp.append l ∈ rest → l.length < LOG_BUFFER_SIZE :=
        fun l hm => hlen l (by simp [hm])
      obtain ⟨hA, hB⟩ := ih (appendLine line s0) (le_of_lt (appendLine_length line s0 hl)) hrest
      refine ⟨by simpa [hstep, applyBufOp] using hA, ?_⟩
      rw [hstep]
      show (runBufOps rest (appendLine line s0)).written ++
            (runBufOps rest (appendLine line s0)).buffer = _
      rw [hB, appendLine_stream]
      simp [bufOpsBytes, bufOpBytes, List.append_assoc]
    | flush =>
      have hrest : ∀ l, BufOp.append l ∈ rest → l.length < LOG_BUFFER_SIZE :=
        fun l hm => hlen l (by simp [hm])
      obtain ⟨hA, hB⟩ := ih (flushBuffer s0) (by simp [flushBuffer_buffer]) hrest
      refine ⟨by simpa [hstep, applyBufOp] using hA, ?_⟩
      rw [hstep]
      show (runBufOps rest (flushBuffer s0)).written ++
            (runBufOps rest (flushBuffer s0)).buffer = _
      have hw : (flushBuffer s0).written = s0.written ++ s0.buffer := by
        have h1 := flushBuffer_stream s0
        rwa [flushBuffer_buffer s0, List.append_nil] at h1
      rw [hB, flushBuffer_buffer, List.append_nil, hw]
      simp [bufOpsBytes, bufOpBytes]

/-- Witness for C1 at a concrete operation sequence. -/
theorem buffer_cursor_bound_no_drop_witness :
    (runBufOps [BufOp.append [65, 66], BufOp.flush, BufOp.append [67]]
        ⟨[], []⟩).buffer.length ≤ LOG_BUFFER_SIZE ∧
    (runBufOps [BufOp.append [65, 66], BufOp.flush, BufOp.append [67]] ⟨[], []⟩).written ++
      (runBufOps [BufOp.append [65, 66], BufOp.flush, BufOp.append [67]] ⟨[], []⟩).buffer =
      ([] : List Nat) ++ ([] : List Nat) ++
        bufOpsBytes [BufOp.append [65, 66], BufOp.flush, BufOp.append [67]] :=
  buffer_cursor_bound_no_drop _ _ (by decide)
    (by
      intro line h
      simp only [List.mem_cons, List.not_mem_nil, or_false] at h
      rcases h with h | h | h
      · cases h; decide
      · cases h
      · cases h; decide)

/-! ## Timeout lemmas and claim C3 -/

theorem runQuietTicks_nil (s : LoggerState) : runQuietTicks [] s = s := rfl

theorem runQuietTicks_cons (t : Nat) (ts : List Nat) (s : LoggerState) :
    runQuietTicks (t :: ts) s = runQuietTicks ts (tick t [] s) := rfl

theorem tick_quiet_of_timedOut (now : Nat) (s : LoggerState) (h : s.canTimeout = true) :
    tick now [] s = s := by
  simp [tick, receiveFrames, checkTimeout, h]

theorem runQuietTicks_of_timedOut (times : List Nat) (s : LoggerState) (h : s.canTimeout = true) :
    runQuietTicks times s = s := by
  induction times with
  | nil => rfl
  | cons t ts ih => rw [runQuietTicks_cons, tick_quiet_of_timedOut t s h, ih]

/-- C3.  If no frames arrive and some tick happens more than `CAN_TIMEOUT_MS`
after the last frame, the run ends with every channel at its sentinel and
exactly one timeout diagnostic was emitted: at the ACTIVE → TIMED_OUT edge,
never again on later ticks. -/
theorem timeout_sentinel_single_diag (times : List Nat) (s0 : LoggerState)
    (hA : s0.canTimeout = false)
    (hT : ∃ t ∈ times, CAN_TIMEOUT_MS < t - s0.lastCANMessageTime) :
    (runQuietTicks times s0).data = CAN_Data.init ∧
    (runQuietTicks times s0).canTimeout = true ∧
    (runQuietTicks times s0).diagTimeout = s0.diagTimeout + 1 := by
  induction times generalizing s0 with
  | nil => simp at hT
  | cons t ts ih =>
    rw [runQuietTicks_cons]
    by_cases htrig : CAN_TIMEOUT_MS < t - s0.lastCANMessageTime
    · have hstep : tick t [] s0 =
          { s0 with canTimeout := true, diagTimeout := s0.diagTimeout + 1,
                    data := CAN_Data.init } := by
        simp [tick, receiveFrames, checkTimeout, hA, htrig]
      rw [hstep, runQuietTicks_of_timedOut ts _ rfl]
      exact ⟨rfl, rfl, rfl⟩
    · have hstep : tick t [] s0 = s0 := by
        simp [tick, receiveFrames, checkTimeout, hA, htrig]
      rw [hstep]
      refine ih s0 hA ?_
      obtain ⟨t2, ht2, hgt⟩ := hT
      rcases List.mem_cons.mp ht2 with rfl | hmem
      · exact absurd hgt htrig
      · exact ⟨t2, hmem, hgt⟩

/-- Witness for C3: quiet ticks at 501 ms and 700 ms after a last frame at
time 0 reach the sentinel state with one diagnostic. -/
theorem timeout_sentinel_single_diag_witness :
    (runQuietTicks [501, 700] ⟨⟨0, 0, 0, 0, 0, 0, 0⟩, false, 0, 0, 0⟩).data = CAN_Data.init ∧
    (runQuietTicks [501, 700] ⟨⟨0, 0, 0, 0, 0, 0, 0⟩, false, 0, 0, 0⟩).canTimeout = true ∧
    (runQuietTicks [501, 700] ⟨⟨0, 0, 0, 0, 0, 0, 0⟩, false, 0, 0, 0⟩).diagTimeout = 0 + 1 :=
  timeout_sentinel_single_diag [501, 700] _ rfl (by decide)

/-! ## Decode lemmas, claims C8 and C9 -/

/-- C8.  Each channel is decoded from its little-endian 16-bit raw value by
the documented scale/offset formula; concretely, a `0x5F0` frame with payload
`[0x10, 0x27, 0, 0, ...]` decodes engine speed to `0x2710 = 10000`, and the
temperature formula at raw value 9500 yields 5. -/
theorem decode_scale_offset_formulas :
    (∀ (msg : CANMsg) (d : CAN_Data), msg.id = ID_RPM_TPS →
        (updateCANData msg d).rpm = (((msg.b1 <<< 8) ||| msg.b0 : Nat) : Int) ∧
        (updateCANData msg d).tps = (((msg.b3 <<< 8) ||| msg.b2 : Nat) : ℚ) / 650) ∧
    (∀ (msg : CANMsg) (d : CAN_Data), msg.id = ID_TEMPS →
        (updateCANData msg d).ect = specTempFormula (((msg.b3 <<< 8) ||| msg.b2 : Nat) : ℚ)) ∧
    (∀ (msg : CANMsg) (d : CAN_Data), msg.id = ID_PRESSURES →
        (updateCANData msg d).map_mbar = (((msg.b1 <<< 8) ||| msg.b0 : Nat) : ℚ) / 10) ∧
    (∀ (msg : CANMsg) (d : CAN_Data), msg.id = ID_VBAT_GEAR →
        (updateCANData msg d).vbat = ((((msg.b3 <<< 8) ||| msg.b2 : Nat) : ℚ) / 32) / 100 ∧
        (updateCANData msg d).gear = toInt16 ((msg.b7 <<< 8) ||| msg.b6)) ∧
    (∀ (msg : CANMsg) (d : CAN_Data), msg.id = ID_LAMBDA →
        (updateCANData msg d).lambda1 = ((((msg.b1 <<< 8) ||| msg.b0 : Nat) : ℚ) / 2) / 1000) ∧
    (updateCANData ⟨ID_RPM_TPS, 0x10, 0x27, 0, 0, 0, 0, 0, 0⟩ CAN_Data.init).rpm = 10000 ∧
    specTempFormula 9500 = 5 := by
  refine ⟨?_, ?_, ?_, ?_, ?_, ?_, ?_⟩
  · intro msg d h
    simp [updateCANData, h, specTempFormula, ID_RPM_TPS, ID_TEMPS, ID_PRESSURES,
      ID_VBAT_GEAR, ID_LAMBDA]
  · intro msg d h
    simp [updateCANData, h, specTempFormula, ID_RPM_TPS, ID_TEMPS, ID_PRESSURES,
      ID_VBAT_GEAR, ID_LAMBDA]
  · intro msg d h
    simp [updateCANData, h, specTempFormula, ID_RPM_TPS, ID_TEMPS, ID_PRESSURES,
      ID_VBAT_GEAR, ID_LAMBDA]
  · intro msg d h
    simp [updateCANData, h, specTempFormula, ID_RPM_TPS, ID_TEMPS, ID_PRESSURES,
      ID_VBAT_GEAR, ID_LAMBDA]
  · intro msg d h
    simp [updateCANData, h, specTempFormula, ID_RPM_TPS, ID_TEMPS, ID_PRESSURES,
      ID_VBAT_GEAR, ID_LAMBDA]
  · simp [updateCANData, ID_RPM_TPS]
  · norm_num [specTempFormula]

/-- Witness for C8: a `0x5F2` frame carrying raw temperature 9500
(bytes `0x1C`, `0x25`) decodes through the documented formula. -/
theorem decode_scale_offset_formulas_witness :
    (updateCANData ⟨ID_TEMPS, 0, 0, 0x1C, 0x25, 0, 0, 0, 0⟩ CAN_Data.init).ect =
      specTempFormula (((0x25 <<< 8) ||| 0x1C : Nat) : ℚ) :=
  decode_scale_offset_formulas.2.1 ⟨ID_TEMPS, 0, 0, 0x1C, 0x25, 0, 0, 0, 0⟩ CAN_Data.init rfl

theorem updateCANData_ect_of_ne (msg : CANMsg) (d : CAN_Data) (h : msg.id ≠ ID_TEMPS) :
    (updateCANData msg d).ect = d.ect := by
  unfold updateCANData
  split_ifs with h1 h2 h3 h4 <;> simp_all

theorem receiveFrames_cons (now : Nat) (m : CANMsg) (rest : List CANMsg) (s : LoggerState) :
    receiveFrames now (m :: rest) s = receiveFrames now rest (receiveFrame now m s) := rfl

theorem receiveFrames_ect (now : Nat) (msgs : List CANMsg) (s : LoggerState)
    (h : ∀ m ∈ msgs, m.id ≠ ID_TEMPS) :
    (receiveFrames now msgs s).data.ect = s.data.ect := by
  induction msgs generalizing s with
  | nil => rfl
  | cons m rest ih =>
    rw [receiveFrames_cons]
    have hm : m.id ≠ ID_TEMPS := h m (by simp)
    have hrest : ∀ m2 ∈ rest, m2.id ≠ ID_TEMPS := fun m2 hm2 => h m2 (by simp [hm2])
    rw [ih (receiveFrame now m s) hrest]
    show (updateCANData m s.data).ect = s.data.ect
    exact updateCANData_ect_of_ne m s.data hm

theorem receiveFrames_flag_time (now : Nat) (msgs : List CANMsg) (s : LoggerState)
    (h : msgs ≠ []) :
    (receiveFrames now msgs s).canTimeout = false ∧
    (receiveFrames now msgs s).lastCANMessageTime = now := by
  induction msgs generalizing s with
  | nil => exact absurd rfl h
  | cons m rest ih =>
    rw [receiveFrames_cons]
    cases rest with
    | nil => exact ⟨rfl, rfl⟩
    | cons m2 r2 => exact ih (receiveFrame now m s) (by simp)

/-- C9.  Decoding a frame mutates only the channels assigned to its id and
leaves every other channel unchanged; consequently a tick that receives
frames — none carrying the temperature id — clears the timeout flag while the
temperature channel keeps its previous (sentinel) value. -/
theorem decode_frame_effect_isolation :
    (∀ (msg : CANMsg) (d : CAN_Data), msg.id = ID_RPM_TPS →
        (updateCANData msg d).ect = d.ect ∧ (updateCANData msg d).map_mbar = d.map_mbar ∧
        (updateCANData msg d).vbat = d.vbat ∧ (updateCANData msg d).gear = d.gear ∧
        (updateCANData msg d).lambda1 = d.lambda1) ∧
    (∀ (msg : CANMsg) (d : CAN_Data), msg.id = ID_TEMPS →
        (updateCANData msg d).rpm = d.rpm ∧ (updateCANData msg d).tps = d.tps ∧
        (updateCANData msg d).map_mbar = d.map_mbar ∧ (updateCANData msg d).vbat = d.vbat ∧
        (updateCANData msg d).gear = d.gear ∧ (updateCANData msg d).lambda1 = d.lambda1) ∧
    (∀ (msg : CANMsg) (d : CAN_Data), msg.id = ID_PRESSURES →
        (updateCANData msg d).rpm = d.rpm ∧ (updateCANData msg d).tps = d.tps ∧
        (updateCANData msg d).ect = d.ect ∧ (updateCANData msg d).vbat = d.vbat ∧
        (updateCANData msg d).gear = d.gear ∧ (updateCANData msg d).lambda1 = d.lambda1) ∧
    (∀ (msg : CANMsg) (d : CAN_Data), msg.id = ID_VBAT_GEAR →
        (updateCANData msg d).rpm = d.rpm ∧ (updateCANData msg d).tps = d.tps ∧
        (updateCANData msg d).ect = d.ect ∧ (updateCANData msg d).map_mbar = d.map_mbar ∧
        (updateCANData msg d).lambda1 = d.lambda1) ∧
    (∀ (msg : CANMsg) (d : CAN_Data), msg.id = ID_LAMBDA →
        (updateCANData msg d).rpm = d.rpm ∧ (updateCANData msg d).tps = d.tps ∧
        (updateCANData msg d).ect = d.ect ∧ (updateCANData msg d).map_mbar = d.map_mbar ∧
        (updateCANData msg d).vbat = d.vbat ∧ (updateCANData msg d).gear = d.gear) ∧
    (∀ (now : Nat) (msgs : List CANMsg) (s : LoggerState), s.canTimeout = true →
        msgs ≠ [] → (∀ m ∈ msgs, m.id ≠ ID_TEMPS) →
        (tick now msgs s).canTimeout = false ∧ (tick now msgs s).data.ect = s.data.ect) := by
  refine ⟨?_, ?_, ?_, ?_, ?_, ?_⟩
  · intro msg d h
    simp [updateCANData, h, ID_RPM_TPS, ID_TEMPS, ID_PRESSURES, ID_VBAT_GEAR, ID_LAMBDA]
  · intro msg d h
    simp [updateCANData, h, ID_RPM_TPS, ID_TEMPS, ID_PRESSURES, ID_VBAT_GEAR, ID_LAMBDA]
  · intro msg d h
    simp [updateCANData, h, ID_RPM_TPS, ID_TEMPS, ID_PRESSURES, ID_VBAT_GEAR, ID_LAMBDA]
  · intro msg d h
    simp [updateCANData, h, ID_RPM_TPS, ID_TEMPS, ID_PRESSURES, ID_VBAT_GEAR, ID_LAMBDA]
  · intro msg d h
    simp [updateCANData, h, ID_RPM_TPS, ID_TEMPS, ID_PRESSURES, ID_VBAT_GEAR, ID_LAMBDA]
  · intro now msgs s _hTO hne hids
    obtain ⟨hflag, htime⟩ := receiveFrames_flag_time now msgs s hne
    have hect := receiveFrames_ect now msgs s hids
    unfold tick checkTimeout
    rw [hflag, htime]
    simp [CAN_TIMEOUT_MS, hect, hflag]

/-- Witness for C9: after a timeout, one `0x5F0` frame clears the flag while
the temperature channel stays at its sentinel. -/
theorem decode_frame_effect_isolation_witness :
    (tick 1000 [⟨ID_RPM_TPS, 0, 0, 0, 0, 0, 0, 0, 0⟩]
        ⟨CAN_Data.init, true, 0, 1, 0⟩).canTimeout = false ∧
    (tick 1000 [⟨ID_RPM_TPS, 0, 0, 0, 0, 0, 0, 0, 0⟩]
        ⟨CAN_Data.init, true, 0, 1, 0⟩).data.ect =
      (⟨CAN_Data.init, true, 0, 1, 0⟩ : LoggerState).data.ect :=
  decode_frame_effect_isolation.2.2.2.2.2 1000 [⟨ID_RPM_TPS, 0, 0, 0, 0, 0, 0, 0, 0⟩]
    ⟨CAN_Data.init, true, 0, 1, 0⟩ rfl (by simp) (by decide)

/-! ## Line formatting lemmas, claims C4 and C7 -/

theorem digitChar_not_comma_newline (d : Nat) :
    notComma (digitChar d) = true ∧ digitChar d ≠ '\n' := by
  unfold digitChar
  split <;> decide

theorem natDigitsAux_mem (fuel n : Nat) (c : Char) (h : c ∈ natDigitsAux fuel n) :
    ∃ d, c = digitChar d := by
  induction fuel generalizing n with
  | zero => simp [natDigitsAux] at h
  | succ f ih =>
    unfold natDigitsAux at h
    by_cases hn : n = 0
    · simp [hn] at h
    · rw [if_neg hn] at h
      rcases List.mem_append.mp h with h1 | h1
      · exact ih (n / 10) h1
      · exact ⟨n % 10, by simpa using h1⟩

theorem natRepr_not_comma (n : Nat) : ∀ c ∈ natRepr n, notComma c = true := by
  intro c hc
  unfold natRepr at hc
  by_cases hn : n = 0
  · rw [if_pos hn] at hc
    simp at hc
    simp [hc, notComma]
  · rw [if_neg hn] at hc
    obtain ⟨d, rfl⟩ := natDigitsAux_mem (n + 1) n c hc
    exact (digitChar_not_comma_newline d).1

theorem takeWhile_append_all {α : Type} (p : α → Bool) (xs ys : List α) (y : α)
    (hx : ∀ x ∈ xs, p x = true) (hy : p y = false) :
    (xs ++ y :: ys).takeWhile p = xs ∧ (xs ++ y :: ys).dropWhile p = y :: ys := by
  induction xs with
  | nil => simp [List.takeWhile_cons, List.dropWhile_cons, hy]
  | cons a as ih =>
    have ha : p a = true := hx a (by simp)
    have has : ∀ x ∈ as, p x = true := fun x hm => hx x (by simp [hm])
    obtain ⟨h1, h2⟩ := ih has
    constructor
    · simp [List.takeWhile_cons, ha, h1]
    · simp [List.dropWhile_cons, ha, h2]

theorem splitAtLastComma_spec (data digits : List Char)
    (h : ∀ c ∈ digits, notComma c = true) :
    splitAtLastComma (data ++ ',' :: digits) = (data, digits) := by
  unfold splitAtLastComma
  have hrev : (data ++ ',' :: digits).reverse = digits.reverse ++ ',' :: data.reverse := by
    rw [List.reverse_append, List.reverse_cons, List.append_assoc, List.singleton_append]
  have hx : ∀ c ∈ digits.reverse, notComma c = true :=
    fun c hc => h c (List.mem_reverse.mp hc)
  have hy : notComma ',' = false := by decide
  obtain ⟨h1, h2⟩ := takeWhile_append_all notComma digits.reverse data.reverse ',' hx hy
  rw [hrev]
  dsimp only
  rw [h1, h2]
  simp

theorem stripNewline_concat (xs : List Char) : stripNewline (xs ++ ['\n']) = xs := by
  unfold stripNewline
  rw [List.getLast?_concat]
  simp

theorem mkLogLine_eq (dataPart : List Char) :
    mkLogLine dataPart = (dataPart ++ ',' :: natRepr (crc32Str dataPart)) ++ ['\n'] := by
  simp [mkLogLine]

/-- C4.  Round-trip of produce-then-verify: for every data portion the
formatter emits, recomputing the CRC32 over the comma-joined field values
preceding the checksum column yields exactly the checksum stored in the
line. -/
theorem checksum_round_trip (dataPart : List Char) :
    checkLine (mkLogLine dataPart) = true := by
  unfold checkLine
  rw [mkLogLine_eq, stripNewline_concat]
  dsimp only
  rw [splitAtLastComma_spec dataPart (natRepr (crc32Str dataPart))
      (natRepr_not_comma (crc32Str dataPart))]
  exact beq_self_eq_true (natRepr (crc32Str dataPart))

theorem probeAux_none_of_all (ex : Nat → Bool) (hall : ∀ i, ex i = true) :
    ∀ (fuel idx : Nat), probeAux ex fuel idx = none := by
  intro fuel
  induction fuel with
  | zero => intro idx; rfl
  | succ f ih =>
    intro idx
    unfold probeAux
    rw [hall, if_pos rfl]
    exact ih (idx + 1)

theorem flushToFile_fileIndex (s : RotState) : (flushToFile s).fileIndex = s.fileIndex := by
  unfold flushToFile
  split <;> rfl

theorem flushToFile_closedFiles (s : RotState) :
    (flushToFile s).closedFiles = s.closedFiles := by
  unfold flushToFile
  split <;> rfl

theorem flushToFile_openCount (s : RotState) : (flushToFile s).openCount = s.openCount := by
  unfold flushToFile
  split <;> rfl

theorem flushToFile_buffer (s : RotState) : (flushToFile s).buffer = [] := by
  unfold flushToFile
  split
  · rfl
  · next h => exact List.eq_nil_of_length_eq_zero (Nat.eq_zero_of_not_pos h)

theorem flushToFile_curFile (s : RotState) :
    (flushToFile s).curFile = s.curFile ++ s.buffer := by
  unfold flushToFile
  split
  · rfl
  · next h =>
    have hb : s.buffer = [] := List.eq_nil_of_length_eq_zero (Nat.eq_zero_of_not_pos h)
    simp [hb]

theorem newLogFile_none (ex : Nat → Bool) (s : RotState)
    (h : newLogFileProbe ex s.fileIndex = none) : newLogFile ex s = none := by
  unfold newLogFile
  rw [h]

theorem checkRotate_none_of_exhausted (s : RotState)
    (hsize : FILE_SIZE_LIMIT < s.curFile.length) (hidx : s.fileIndex < 999) :
    checkRotate (fun _ => true) s = none := by
  unfold checkRotate
  rw [if_pos ⟨hsize, hidx⟩]
  apply newLogFile_none
  dsimp only
  rw [flushToFile_fileIndex]
  exact probeAux_none_of_all (fun _ => true) (fun _ => rfl) UINT16_CARD s.fileIndex

/-- C2 counterexample.  A state whose open file already exceeds the size
limit but whose `fileIndex` has reached 999: the rotation check leaves the
state untouched — no file is closed, no new file is opened — so the claim
"whenever the size exceeds the limit, exactly one new file is opened" fails
as stated.  Likewise, below 999 but with every filename taken, the collision
loop never exits and no new file is opened either. -/
theorem rotation_skipped_at_fileIndex_999 :
    checkRotate (fun _ => false)
        ⟨[], List.replicate (FILE_SIZE_LIMIT + 1) 'x', [], 999, 1⟩ =
      some ⟨[], List.replicate (FILE_SIZE_LIMIT + 1) 'x', [], 999, 1⟩ ∧
    FILE_SIZE_LIMIT <
      ((⟨[], List.replicate (FILE_SIZE_LIMIT + 1) 'x', [], 999, 1⟩ : RotState)).curFile.length ∧
    checkRotate (fun _ => true)
        ⟨[], List.replicate (FILE_SIZE_LIMIT + 1) 'x', [], 0, 1⟩ = none := by
  refine ⟨?_, by simp, ?_⟩
  · unfold checkRotate
    rw [if_neg]
    intro hcond
    exact absurd hcond.2 (by decide)
  · exact checkRotate_none_of_exhausted
      ⟨[], List.replicate (FILE_SIZE_LIMIT + 1) 'x', [], 0, 1⟩ (by simp) (by decide)

/-- C2 amended.  Whenever the open file's size exceeds the limit, fewer than
999 rotations have happened (`fileIndex < 999`), and the collision probe
finds a free name, exactly one new file is opened whose content starts with
the CSV header line, and the old file is closed having first received every
byte that was in the RAM buffer at rotation time. -/
theorem rotation_one_new_file_with_header (ex : Nat → Bool) (s : RotState)
    (hsize : FILE_SIZE_LIMIT < s.curFile.length) (hidx : s.fileIndex < 999)
    (i : Nat) (hprobe : newLogFileProbe ex s.fileIndex = some i) :
    checkRotate ex s = some
      { buffer := [], curFile := headerBytes,
        closedFiles := s.closedFiles ++ [s.curFile ++ s.buffer],
        fileIndex := (i + 1) % UINT16_CARD, openCount := s.openCount + 1 } := by
  unfold checkRotate
  rw [if_pos ⟨hsize, hidx⟩]
  unfold newLogFile
  simp only [flushToFile_fileIndex, flushToFile_closedFiles, flushToFile_openCount,
    flushToFile_curFile, hprobe]

/-- Witness for the amended C2 at a concrete over-limit state. -/
theorem rotation_one_new_file_with_header_witness :
    checkRotate (fun _ => false)
        ⟨['a'], List.replicate (FILE_SIZE_LIMIT + 1) 'x', [], 0, 1⟩ =
      some
        { buffer := [], curFile := headerBytes,
          closedFiles := [] ++ [List.replicate (FILE_SIZE_LIMIT + 1) 'x' ++ ['a']],
          fileIndex := (0 + 1) % UINT16_CARD, openCount := 1 + 1 } :=
  rotation_one_new_file_with_header (fun _ => false)
    ⟨['a'], List.replicate (FILE_SIZE_LIMIT + 1) 'x', [], 0, 1⟩
    (by simp) (by decide) 0 (by decide)

theorem bufferLine_fileIndex (line : List Char) (s : RotState) :
    (bufferLine line s).fileIndex = s.fileIndex := by
  unfold bufferLine
  dsimp only
  split <;> simp [flushToFile_fileIndex]

theorem bufferLine_closedFiles (line : List Char) (s : RotState) :
    (bufferLine line s).closedFiles = s.closedFiles := by
  unfold bufferLine
  dsimp only
  split <;> simp [flushToFile_closedFiles]

theorem bufferLine_openCount (line : List Char) (s : RotState) :
    (bufferLine line s).openCount = s.openCount := by
  unfold bufferLine
  dsimp only
  split <;> simp [flushToFile_openCount]

theorem bufferLine_total (line : List Char) (s : RotState) :
    (bufferLine line s).curFile.length + (bufferLine line s).buffer.length =
      s.curFile.length + s.buffer.length + line.length := by
  unfold bufferLine
  dsimp only
  split
  all_goals simp only [flushToFile_buffer, flushToFile_curFile, List.length_append,
    List.nil_append]
  all_goals omega

theorem bufferLine_buffer_lt (line : List Char) (s : RotState)
    (h : line.length < LOG_BUFFER_SIZE) :
    (bufferLine line s).buffer.length < LOG_BUFFER_SIZE := by
  unfold bufferLine
  dsimp only
  split
  · simpa [flushToFile_buffer] using h
  · next hc =>
    simp only [List.length_append]
    omega

theorem checkRotate_of_ge999 (ex : Nat → Bool) (s : RotState) (h : 999 ≤ s.fileIndex) :
    checkRotate ex s = some s := by
  unfold checkRotate
  rw [if_neg]
  intro hcond
  omega

theorem logDataToFile_of_ge999 (ex : Nat → Bool) (line : List Char) (s : RotState)
    (h : 999 ≤ s.fileIndex) :
    logDataToFile ex line s = some (bufferLine line s) := by
  unfold logDataToFile
  exact checkRotate_of_ge999 ex _ (by rw [bufferLine_fileIndex]; exact h)

theorem logRun_nil (ex : Nat → Bool) (s : RotState) : logRun ex [] s = some s := rfl

theorem logRun_cons (ex : Nat → Bool) (l : List Char) (rest : List (List Char)) (s : RotState) :
    logRun ex (l :: rest) s = (logDataToFile ex l s).bind (fun s2 => logRun ex rest s2) := by
  simp [logRun, List.foldlM_cons, Option.bind_eq_bind]

theorem logRun_replicate_unit (ex : Nat → Bool) :
    ∀ (n : Nat) (s : RotState), 999 ≤ s.fileIndex →
    ∃ s1, logRun ex (List.replicate n ['x']) s = some s1 ∧
      s1.fileIndex = s.fileIndex ∧ s1.openCount = s.openCount ∧
      s1.closedFiles = s.closedFiles ∧
      s1.curFile.length + s1.buffer.length = s.curFile.length + s.buffer.length + n ∧
      s1.buffer.length ≤ max s.buffer.length LOG_BUFFER_SIZE := by
  intro n
  induction n with
  | zero =>
    intro s h
    exact ⟨s, logRun_nil ex s, rfl, rfl, rfl, by simp, le_max_left _ _⟩
  | succ m ih =>
    intro s h
    have hstep := logDataToFile_of_ge999 ex ['x'] s h
    have hfi := bufferLine_fileIndex ['x'] s
    obtain ⟨s1, hrun, h1, h2, h3, h4, h5⟩ := ih (bufferLine ['x'] s) (by rw [hfi]; exact h)
    refine ⟨s1, ?_, ?_, ?_, ?_, ?_, ?_⟩
    · rw [List.replicate_succ, logRun_cons, hstep, Option.some_bind, hrun]
    · rw [h1, hfi]
    · rw [h2, bufferLine_openCount]
    · rw [h3, bufferLine_closedFiles]
    · rw [h4, bufferLine_total]
      simp
      omega
    · have hb : (bufferLine ['x'] s).buffer.length < LOG_BUFFER_SIZE :=
        bufferLine_buffer_lt ['x'] s (by simp [LOG_BUFFER_SIZE])
      calc s1.buffer.length
          ≤ max (bufferLine ['x'] s).buffer.length LOG_BUFFER_SIZE := h5
        _ ≤ LOG_BUFFER_SIZE := by omega
        _ ≤ max s.buffer.length LOG_BUFFER_SIZE := le_max_right _ _

/-- C10.  Once `fileIndex` has reached 999 the rotation condition can never
hold again: every `logDataToFile` call only buffers (no file is closed, none
is opened), and the open file's size grows past any bound — in particular
past `FILE_SIZE_LIMIT`. -/
theorem no_rotation_after_999 (ex : Nat → Bool) (s : RotState) (h : 999 ≤ s.fileIndex) :
    (∀ line, logDataToFile ex line s = some (bufferLine line s) ∧
        (bufferLine line s).fileIndex = s.fileIndex ∧
        (bufferLine line s).openCount = s.openCount ∧
        (bufferLine line s).closedFiles = s.closedFiles) ∧
    (∀ B, ∃ lines s1, logRun ex lines s = some s1 ∧
        s1.openCount = s.openCount ∧ s1.closedFiles = s.closedFiles ∧
        B < s1.curFile.length) := by
  constructor
  · intro line
    exact ⟨logDataToFile_of_ge999 ex line s h, bufferLine_fileIndex line s,
      bufferLine_openCount line s, bufferLine_closedFiles line s⟩
  · intro B
    obtain ⟨s1, hrun, h1, h2, h3, h4, h5⟩ :=
      logRun_replicate_unit ex (B + LOG_BUFFER_SIZE + 1) s h
    refine ⟨List.replicate (B + LOG_BUFFER_SIZE + 1) ['x'], s1, hrun, h2, h3, ?_⟩
    rcases Nat.le_total s.buffer.length LOG_BUFFER_SIZE with hc | hc
    · rw [Nat.max_eq_right hc] at h5
      omega
    · rw [Nat.max_eq_left hc] at h5
      omega

/-- Witness for C10: at `fileIndex = 999` a log step only buffers and the
file count stays at one. -/
theorem no_rotation_after_999_witness :
    logDataToFile (fun _ => false) ['x'] ⟨[], [], [], 999, 1⟩ =
      some (bufferLine ['x'] ⟨[], [], [], 999, 1⟩) ∧
    (bufferLine ['x'] (⟨[], [], [], 999, 1⟩ : RotState)).openCount = 1 := by
  have h := (no_rotation_after_999 (fun _ => false) ⟨[], [], [], 999, 1⟩ (by decide)).1 ['x']
  exact ⟨h.1, h.2.2.1⟩

/-! ## Flush-failure lemmas, claim C5 -/

/-- C5 counterexample.  In v2.0 `flushBuffer` the result of `logfile.write`
is never inspected: with ten bytes pending and a write that reports only five
bytes written, the cursor is still reset and the logger continues un-halted —
it does not treat the short write as fatal. -/
theorem flushBuffer_ignores_short_write :
    flushBufferWrite 5 ⟨10, false⟩ = ⟨0, false⟩ ∧ 5 < 10 := by
  constructor
  · rfl
  · decide

/-- C5 amended.  The part_004 variant does treat a short write as fatal: its
periodic flush compares the written byte count against `bufferIndex` and
enters the non-recoverable `errorHalt` state on a shortfall; the v2.0
`flushBuffer` of DAQ_teensy.ino ignores the write result and continues. -/
theorem periodic_flush_short_write_halts (writeResult : Nat) (syncOk : Bool) (s : FlushState)
    (h0 : 0 < s.bufferIndex) (hw : writeResult < s.bufferIndex) :
    (periodicFlush writeResult syncOk s).halted = true := by
  unfold periodicFlush
  rw [if_pos h0, if_pos (Or.inl hw)]

/-- Witness for the amended C5. -/
theorem periodic_flush_short_write_halts_witness :
    (periodicFlush 5 true ⟨10, false⟩).halted = true :=
  periodic_flush_short_write_halts 5 true ⟨10, false⟩ (by decide) (by decide)

/-! ## Filename-probe lemmas, claim C6 -/

theorem probeAux_free (ex : Nat → Bool) :
    ∀ (fuel idx i : Nat), probeAux ex fuel idx = some i → ex i = false := by
  intro fuel
  induction fuel with
  | zero => intro idx i h; exact absurd h (by simp [probeAux])
  | succ f ih =>
    intro idx i h
    unfold probeAux at h
    by_cases hc : ex (idx % UINT16_CARD) = true
    · rw [hc, if_pos rfl] at h
      exact ih (idx + 1) i h
    · rw [Bool.not_eq_true] at hc
      rw [hc] at h
      simp at h
      rw [← h]
      exact hc

/-- C6 counterexample.  On a storage state where every generated filename
already exists, the v2.0 `newLogFile` collision loop cycles through its
entire 16-bit name space without ever finding a free name — the do/while
never exits and no fatal error is reported (`newLogFile` has no error path),
so the claim that the probe terminates with a fatal report fails. -/
theorem newLogFile_probe_exhausted_no_halt :
    newLogFileProbe (fun _ => true) 0 = none ∧
    newLogFile (fun _ => true) ⟨[], [], [], 0, 1⟩ = none := by
  have h := probeAux_none_of_all (fun _ => true) (fun _ => rfl)
  refine ⟨h UINT16_CARD 0, ?_⟩
  unfold newLogFile newLogFileProbe
  rw [h]

/-- C6 amended.  When the v2.0 `newLogFile` probe does terminate it returns a
name that does not yet exist (no reuse); the part_002 `openNextLogFile`
always terminates on its bounded 0–999 namespace and either reports a fatal
`errorHalt` or opens a free name within the bound. -/
theorem filename_probe_bounded_or_halt :
    (∀ (ex : Nat → Bool) (n i : Nat), newLogFileProbe ex n = some i → ex i = false) ∧
    (∀ (ex : Nat → Bool) (n : Nat),
      (openNextLogFile ex n).halted = true ∨
      ∃ i, (openNextLogFile ex n).opened = some i ∧ ex i = false ∧ i ≤ 999) := by
  constructor
  · intro ex n i h
    exact probeAux_free ex UINT16_CARD n i h
  · intro ex n
    unfold openNextLogFile
    cases hf : findFree002 ex n with
    | none => exact Or.inl rfl
    | some i =>
      refine Or.inr ⟨i, rfl, ?_, ?_⟩
      · have := List.find?_some hf
        simpa using this
      · have hmem := List.mem_of_find?_eq_some hf
        have hrange := List.mem_range'_1.mp hmem
        rcases Nat.le_total n 1000 with hn | hn
        · omega
        · have hz : 1000 - n = 0 := by omega
          rw [findFree002, hz] at hf
          simp at hf

/-- Witness for the amended C6: with names 0–2 taken, the probe returns the
fresh name 3. -/
theorem filename_probe_bounded_or_halt_witness :
    (fun i => decide (i < 3) : Nat → Bool) 3 = false :=
  filename_probe_bounded_or_halt.1 (fun i => decide (i < 3)) 0 3 (by decide)

end DAQ
